import Mathlib

/-!
Shallow embedding of the Communication Skills Analyzer scoring core
(`src/backend/analyzer.py`, `src/backend/config.py`, `src/backend/app.py`).

Transcripts and sentences are modelled as lists of characters; Python's
case-insensitive substring containment (`kw in text.lower()`) becomes
`List.isInfixOf` over lowercased character lists.  The external NLP
capabilities (word tokenizer, sentence splitter, grammar checker, sentiment
scorer) are parameters of the embedded functions, exactly as the spec treats
them (narrow consumed interfaces).  Python floats are modelled with exact
rationals; every threshold comparison in the source is at distance at least
1/13 (speech rate) or a similarly robust margin from the nearest representable
boundary, so the idealized arithmetic agrees with the float arithmetic on all
branch decisions relevant here.
-/

namespace CommAnalyzer

/-- A Python string, modelled as its list of characters. -/
abbrev Str := List Char

/-- Python `str.lower()`. -/
def strLower (s : Str) : Str := s.map Char.toLower

/-- Python `kw in text` (substring containment). -/
def containsSub (kw text : Str) : Bool := decide (kw <:+: text)

/- ------------------------------------------------------------------
   config.py
   ------------------------------------------------------------------ -/

/-- `Config.DEFAULT_DURATION_SEC` (default 52). -/
def DEFAULT_DURATION_SEC : ℚ := 52

/-- `Config.MAX_TRANSCRIPT_LENGTH` (default 5000). -/
def MAX_TRANSCRIPT_LENGTH : ℕ := 5000

/- ------------------------------------------------------------------
   analyzer.py : _analyze_salutation
   ------------------------------------------------------------------ -/

/-- Excellent-tier salutation keywords (analyzer.py line 80). -/
def excellent_keywords : List Str :=
  ["excited to introduce".toList, "feeling great".toList,
   "thrilled to share".toList, "honored to be".toList]

/-- Good-tier salutation keywords (analyzer.py line 86). -/
def good_keywords : List Str :=
  ["good morning".toList, "good afternoon".toList, "good evening".toList,
   "good day".toList, "hello everyone".toList]

/-- Normal-tier salutation keywords (analyzer.py line 92). -/
def normal_keywords : List Str :=
  ["hi".toList, "hello".toList, "hey".toList]

/-- `_analyze_salutation`: first matching tier in descending rank order. -/
def analyze_salutation (transcript : Str) : ℕ :=
  let tl := strLower transcript
  if excellent_keywords.any (fun k => containsSub k tl) then 5
  else if good_keywords.any (fun k => containsSub k tl) then 4
  else if normal_keywords.any (fun k => containsSub k tl) then 2
  else 0

/- ------------------------------------------------------------------
   analyzer.py : _fuzzy_match, _analyze_keyword_presence
   ------------------------------------------------------------------ -/

/-- `_fuzzy_match`: plain substring containment. -/
def fuzzy_match (keyword text : Str) : Bool := containsSub keyword text

/-- Must-have keywords, 4 points each (analyzer.py line 106). -/
def must_have_keywords : List Str :=
  ["name".toList, "age".toList, "class".toList, "school".toList,
   "family".toList, "hobbies".toList]

/-- Good-to-have keywords, 2 points each, capped at 10 (analyzer.py line 112). -/
def good_to_have_keywords : List Str :=
  ["from".toList, "goal".toList, "dream".toList, "fun fact".toList,
   "unique".toList, "strength".toList, "achievement".toList]

/-- `_analyze_keyword_presence`. -/
def analyze_keyword_presence (transcript : Str) : ℕ :=
  let tl := strLower transcript
  let must_have_score :=
    must_have_keywords.foldl (fun s k => if fuzzy_match k tl then s + 4 else s) 0
  let good_to_have_score :=
    good_to_have_keywords.foldl (fun s k => if fuzzy_match k tl then s + 2 else s) 0
  must_have_score + min good_to_have_score 10

/- ------------------------------------------------------------------
   analyzer.py : _analyze_flow
   ------------------------------------------------------------------ -/

/-- Opening-greeting substrings checked on the first sentence (line 128). -/
def flow_greetings : List Str :=
  ["hello".toList, "hi".toList, "good morning".toList,
   "good afternoon".toList, "good evening".toList]

/-- Closing/gratitude substrings checked on the last sentence (line 129). -/
def flow_closings : List Str :=
  ["thank".toList, "thanks".toList, "appreciate".toList]

/-- `_analyze_flow`. -/
def analyze_flow (sentences : List Str) : ℕ :=
  if sentences.length < 2 then 0
  else
    let first_sentence := strLower (sentences.headD [])
    let last_sentence := strLower (sentences.getLastD [])
    let has_salutation := flow_greetings.any (fun w => containsSub w first_sentence)
    let has_closing := flow_closings.any (fun w => containsSub w last_sentence)
    if has_salutation && has_closing then 5 else 0

/- ------------------------------------------------------------------
   analyzer.py : _analyze_speech_rate  (and config speech-rate bands)
   ------------------------------------------------------------------ -/

/-- `words_per_minute = (total_words / DEFAULT_DURATION_SEC) * 60`. -/
def words_per_minute (total_words : ℕ) : ℚ :=
  ((total_words : ℚ) / DEFAULT_DURATION_SEC) * 60

/-- `_analyze_speech_rate`: the if/elif chain of analyzer.py lines 138-147. -/
def analyze_speech_rate (total_words : ℕ) : ℕ :=
  let wpm := words_per_minute total_words
  if wpm > 160 then 2
  else if 141 ≤ wpm ∧ wpm ≤ 160 then 6
  else if 111 ≤ wpm ∧ wpm ≤ 140 then 10
  else if 81 ≤ wpm ∧ wpm ≤ 110 then 6
  else 2

/-- Config band `too_fast`: `(161, float('inf'))`, inclusive membership. -/
def inBandTooFast (r : ℚ) : Prop := 161 ≤ r

/-- Config band `fast`: `(141, 160)`, inclusive membership. -/
def inBandFast (r : ℚ) : Prop := 141 ≤ r ∧ r ≤ 160

/-- Config band `ideal`: `(111, 140)`, inclusive membership. -/
def inBandIdeal (r : ℚ) : Prop := 111 ≤ r ∧ r ≤ 140

/-- Config band `slow`: `(81, 110)`, inclusive membership. -/
def inBandSlow (r : ℚ) : Prop := 81 ≤ r ∧ r ≤ 110

/-- Config band `too_slow`: `(0, 80)`, inclusive membership. -/
def inBandTooSlow (r : ℚ) : Prop := 0 ≤ r ∧ r ≤ 80

/- ------------------------------------------------------------------
   analyzer.py : _analyze_grammar, _basic_grammar_check
   ------------------------------------------------------------------ -/

/-- The outcome of the external grammar capability as seen inside
`_analyze_grammar`: the LanguageTool object can be `None` (unavailable),
the `check` call can raise, or it returns a list of matches (here: its
length, the count of flagged issues). -/
inductive GrammarExt where
  | unavailable : GrammarExt
  | throws : GrammarExt
  | ok (numMatches : ℕ) : GrammarExt

/-- Python `str.strip()`. -/
def strStrip (s : Str) : Str :=
  ((s.dropWhile Char.isWhitespace).reverse.dropWhile Char.isWhitespace).reverse

/-- A sentence counted as an error by the punctuation loop of
`_basic_grammar_check` (line 189): nonempty after stripping and its last
character is not in `['.', '!', '?']`. -/
def missingTerminalPunct (sentence : Str) : Bool :=
  let s := strStrip sentence
  decide (s.length > 0) && !(s.getLastD ' ' = '.' || s.getLastD ' ' = '!' || s.getLastD ' ' = '?')

/-- A sentence counted as an error by the capitalization loop of
`_basic_grammar_check` (line 194): nonempty after stripping and its first
character is not uppercase. -/
def missingCapital (sentence : Str) : Bool :=
  let s := strStrip sentence
  decide (s.length > 0) && !(s.headD ' ').isUpper

/-- `_basic_grammar_check`: heuristic fallback grammar scoring. -/
def basic_grammar_check (sentences : List Str) (total_words : ℕ) : ℕ :=
  let common_errors : ℕ :=
    (sentences.filter missingTerminalPunct).length +
      (sentences.filter missingCapital).length
  let errors_per_100_words : ℚ :=
    if total_words > 0 then ((common_errors : ℚ) / total_words) * 100 else 0
  let grammar_score : ℚ := 1 - min (errors_per_100_words / 10) 1
  if grammar_score ≥ 9/10 then 10
  else if grammar_score ≥ 7/10 then 8
  else if grammar_score ≥ 5/10 then 6
  else 4

/-- Primary grammar scoring path (analyzer.py lines 163-176), applied to the
count of issues returned by the external check. -/
def grammar_primary (numMatches : ℕ) (total_words : ℕ) : ℕ :=
  let errors_per_100_words : ℚ :=
    if total_words > 0 then ((numMatches : ℚ) / total_words) * 100 else 0
  let grammar_score : ℚ := 1 - min (errors_per_100_words / 10) 1
  if grammar_score ≥ 9/10 then 10
  else if grammar_score ≥ 7/10 then 8
  else if grammar_score ≥ 5/10 then 6
  else if grammar_score ≥ 3/10 then 4
  else 2

/-- `_analyze_grammar`: tool unavailable or call raising both fall back to
`_basic_grammar_check`; otherwise the primary threshold pipeline runs. -/
def analyze_grammar (ext : GrammarExt) (sentences : List Str) (total_words : ℕ) : ℕ :=
  match ext with
  | .unavailable => basic_grammar_check sentences total_words
  | .throws => basic_grammar_check sentences total_words
  | .ok numMatches => grammar_primary numMatches total_words

/- ------------------------------------------------------------------
   analyzer.py : _analyze_vocabulary
   ------------------------------------------------------------------ -/

/-- `_analyze_vocabulary`: type-token-ratio thresholds, floor 2 on empty. -/
def analyze_vocabulary (words : List Str) : ℕ :=
  if words = [] then 2
  else
    let distinct_words := words.dedup.length
    let total_words := words.length
    let ttr : ℚ := (distinct_words : ℚ) / total_words
    if ttr ≥ 9/10 then 10
    else if ttr ≥ 7/10 then 8
    else if ttr ≥ 5/10 then 6
    else if ttr ≥ 3/10 then 4
    else 2

/- ------------------------------------------------------------------
   analyzer.py : _analyze_clarity
   ------------------------------------------------------------------ -/

/-- A regex word character (`\w` over the ASCII transcripts at hand). -/
def isWordChar (c : Char) : Bool := c.isAlphanum || c = '_'

/-- Whether a `\b`-delimited occurrence of `pat` starts at the head of
`text`, given the character just before `text` (`none` at the start of the
string): the pattern must be a prefix of `text` and both ends must sit at a
word boundary. -/
def boundaryMatch (pat : Str) (prev : Option Char) (text : Str) : Bool :=
  pat.isPrefixOf text &&
    (match prev with | none => true | some c => !isWordChar c) &&
    (match text.drop pat.length with | [] => true | c :: _ => !isWordChar c)

/-- Count of matches of `re.findall` with pattern `\b<pat>\b` on `text`,
scanning left to right and resuming after each match, as the `re` module does. -/
def countMatches (pat : Str) (prev : Option Char) (text : Str) : ℕ :=
  if hp : pat = [] then 0
  else if hm : boundaryMatch pat prev text then
    1 + countMatches pat (some (pat.getLastD ' ')) (text.drop pat.length)
  else
    match text with
    | [] => 0
    | c :: rest => countMatches pat (some c) rest
termination_by text.length
decreasing_by
  · have hpre : pat.isPrefixOf text := by
      simp only [boundaryMatch, Bool.and_eq_true] at hm
      exact hm.1.1
    have hle : pat.length ≤ text.length :=
      (List.isPrefixOf_iff_prefix.mp hpre).length_le
    have hppos : 0 < pat.length := List.length_pos.mpr hp
    simp only [List.length_drop]
    omega
  · simp only [List.length_cons]
    omega

/-- The filler word/phrase list (analyzer.py lines 237-240). -/
def filler_words : List Str :=
  ["um".toList, "uh".toList, "like".toList, "you know".toList, "so".toList,
   "actually".toList, "basically".toList, "right".toList, "i mean".toList,
   "well".toList, "kinda".toList, "sort of".toList, "okay".toList,
   "hmm".toList, "ah".toList]

/-- `_analyze_clarity`: filler-rate thresholds, floor 3 on empty word list. -/
def analyze_clarity (transcript : Str) (words : List Str) : ℕ :=
  if words = [] then 3
  else
    let tl := strLower transcript
    let filler_count := filler_words.foldl (fun acc f => acc + countMatches f none tl) 0
    let filler_rate : ℚ := ((filler_count : ℚ) / words.length) * 100
    if filler_rate ≤ 3 then 15
    else if filler_rate ≤ 6 then 12
    else if filler_rate ≤ 9 then 9
    else if filler_rate ≤ 12 then 6
    else 3

/- ------------------------------------------------------------------
   analyzer.py : _analyze_engagement
   ------------------------------------------------------------------ -/

/-- `_analyze_engagement`: the external sentiment call either raises
(`Except.error`) or returns the positive-affect proportion. -/
def analyze_engagement (ext : Except Unit ℚ) : ℕ :=
  match ext with
  | .error _ => 9
  | .ok positive_score =>
    if positive_score ≥ 9/10 then 15
    else if positive_score ≥ 7/10 then 12
    else if positive_score ≥ 5/10 then 9
    else if positive_score ≥ 3/10 then 6
    else 3

/- ------------------------------------------------------------------
   analyzer.py : _calculate_overall_score, analyze
   ------------------------------------------------------------------ -/

/-- The eight-key criterion score dictionary built by `analyze`. -/
structure CriterionScores where
  salutation : ℕ
  keyword_presence : ℕ
  flow : ℕ
  speech_rate : ℕ
  grammar : ℕ
  vocabulary : ℕ
  clarity : ℕ
  engagement : ℕ
deriving Repr, DecidableEq

/-- Sum of the eight criterion scores (analyzer.py lines 280-289). -/
def criterionSum (cs : CriterionScores) : ℕ :=
  cs.salutation + cs.keyword_presence + cs.flow + cs.speech_rate +
    cs.grammar + cs.vocabulary + cs.clarity + cs.engagement

/-- `_calculate_overall_score`. -/
def calculate_overall_score (cs : CriterionScores) : ℕ :=
  min 100 (criterionSum cs)

/-- The `AnalysisResult` dictionary returned by `analyze` (feedback map
omitted here; salutation feedback is modelled separately below). -/
structure AnalysisResult where
  overall_score : ℕ
  criterion_scores : CriterionScores
  word_count : ℕ
  sentence_count : ℕ
deriving Repr, DecidableEq

/-- `CommunicationAnalyzer.analyze`, parametrized over the external
capabilities: `words` and `sentences` are the tokenizer outputs for the
transcript, `grammarExt` and `sentimentExt` the external call outcomes. -/
def analyze (transcript : Str) (words : List Str) (sentences : List Str)
    (grammarExt : GrammarExt) (sentimentExt : Except Unit ℚ) : AnalysisResult :=
  let total_words := words.length
  let criterion_scores : CriterionScores :=
    { salutation := analyze_salutation transcript
      keyword_presence := analyze_keyword_presence transcript
      flow := analyze_flow sentences
      speech_rate := analyze_speech_rate total_words
      grammar := analyze_grammar grammarExt sentences total_words
      vocabulary := analyze_vocabulary words
      clarity := analyze_clarity transcript words
      engagement := analyze_engagement sentimentExt }
  { overall_score := calculate_overall_score criterion_scores
    criterion_scores := criterion_scores
    word_count := total_words
    sentence_count := sentences.length }

/- ------------------------------------------------------------------
   analyzer.py : _get_salutation_feedback
   ------------------------------------------------------------------ -/

/-- `_get_salutation_feedback`: note its excellent list omits
`'honored to be'` and its good list omits `'good day'`, unlike the lists
used by `_analyze_salutation`. -/
def get_salutation_feedback (transcript : Str) : Str :=
  let tl := strLower transcript
  if ["excited to introduce".toList, "feeling great".toList,
      "thrilled to share".toList].any (fun k => containsSub k tl) then
    "Used excellent level salutation".toList
  else if ["good morning".toList, "good afternoon".toList, "good evening".toList,
      "hello everyone".toList].any (fun k => containsSub k tl) then
    "Used good level salutation".toList
  else if ["hi".toList, "hello".toList, "hey".toList].any
      (fun k => containsSub k tl) then
    "Used normal level salutation".toList
  else
    "No appropriate salutation found".toList

/- ------------------------------------------------------------------
   app.py : analyze_transcript endpoint (boundary layer)
   ------------------------------------------------------------------ -/

/-- The `/analyze` endpoint body (app.py lines 22-34): empty transcript and
over-long transcript are rejected before the analyzer runs. -/
def analyze_transcript_endpoint (transcript : Str) (words : List Str)
    (sentences : List Str) (grammarExt : GrammarExt)
    (sentimentExt : Except Unit ℚ) : Except Str AnalysisResult :=
  if transcript = [] then .error "No transcript provided".toList
  else if transcript.length > MAX_TRANSCRIPT_LENGTH then
    .error "Transcript too long".toList
  else .ok (analyze transcript words sentences grammarExt sentimentExt)

/- ------------------------------------------------------------------
   Helper lemmas
   ------------------------------------------------------------------ -/

/-- Scoring loops of `_analyze_keyword_presence`: adding `k` per matched
keyword equals `k` times the number of matched keywords. -/
theorem foldl_if_acc (p : Str → Bool) (k : ℕ) :
    ∀ (l : List Str) (init : ℕ),
      l.foldl (fun s x => if p x then s + k else s) init
        = init + k * (l.filter p).length := by
  intro l
  induction l with
  | nil => intro init; simp
  | cons a l ih =>
    intro init
    cases hpa : p a with
    | true => simp [List.foldl_cons, List.filter_cons, hpa, ih]; ring
    | false => simp [List.foldl_cons, List.filter_cons, hpa, ih]

/-- `_analyze_keyword_presence` in closed counting form. -/
theorem analyze_keyword_presence_eq (t : Str) :
    analyze_keyword_presence t
      = 4 * (must_have_keywords.filter
              (fun k => fuzzy_match k (strLower t))).length
        + min (2 * (good_to_have_keywords.filter
              (fun k => fuzzy_match k (strLower t))).length) 10 := by
  simp only [analyze_keyword_presence]
  rw [foldl_if_acc, foldl_if_acc]
  simp

theorem analyze_salutation_le (t : Str) : analyze_salutation t ≤ 5 := by
  simp only [analyze_salutation]
  split_ifs <;> omega

theorem analyze_keyword_presence_le (t : Str) : analyze_keyword_presence t ≤ 34 := by
  rw [analyze_keyword_presence_eq]
  have h1 := List.length_filter_le
    (fun k => fuzzy_match k (strLower t)) must_have_keywords
  have h2 : must_have_keywords.length = 6 := rfl
  have h3 := min_le_right
    (2 * (good_to_have_keywords.filter
      (fun k => fuzzy_match k (strLower t))).length) 10
  omega

theorem analyze_flow_le (s : List Str) : analyze_flow s ≤ 5 := by
  simp only [analyze_flow]
  split_ifs <;> omega

theorem analyze_speech_rate_le (n : ℕ) : analyze_speech_rate n ≤ 10 := by
  simp only [analyze_speech_rate]
  split_ifs <;> omega

theorem basic_grammar_check_mem (s : List Str) (n : ℕ) :
    basic_grammar_check s n = 10 ∨ basic_grammar_check s n = 8 ∨
      basic_grammar_check s n = 6 ∨ basic_grammar_check s n = 4 := by
  simp only [basic_grammar_check]
  split_ifs <;> simp

theorem grammar_primary_mem (m n : ℕ) :
    grammar_primary m n = 10 ∨ grammar_primary m n = 8 ∨
      grammar_primary m n = 6 ∨ grammar_primary m n = 4 ∨
      grammar_primary m n = 2 := by
  simp only [grammar_primary]
  split_ifs <;> simp

theorem analyze_grammar_le (g : GrammarExt) (s : List Str) (n : ℕ) :
    analyze_grammar g s n ≤ 10 := by
  cases g with
  | unavailable => rcases basic_grammar_check_mem s n with h | h | h | h <;>
      simp [analyze_grammar, h]
  | throws => rcases basic_grammar_check_mem s n with h | h | h | h <;>
      simp [analyze_grammar, h]
  | ok m => rcases grammar_primary_mem m n with h | h | h | h | h <;>
      simp [analyze_grammar, h]

theorem analyze_vocabulary_le (w : List Str) : analyze_vocabulary w ≤ 10 := by
  simp only [analyze_vocabulary]
  split_ifs <;> omega

theorem analyze_clarity_le (t : Str) (w : List Str) : analyze_clarity t w ≤ 15 := by
  simp only [analyze_clarity]
  split_ifs <;> omega

theorem analyze_engagement_le (e : Except Unit ℚ) : analyze_engagement e ≤ 15 := by
  cases e with
  | error u => simp [analyze_engagement]
  | ok p =>
    simp only [analyze_engagement]
    split_ifs <;> omega

/- ------------------------------------------------------------------
   Claim theorems
   ------------------------------------------------------------------ -/

/-- C1: for every transcript (and every tokenization and external-call
outcome), the overall_score returned by analyze equals
min(100, sum of the eight criterion scores). -/
theorem overall_score_eq_min_100_sum (t : Str) (w : List Str) (s : List Str)
    (g : GrammarExt) (e : Except Unit ℚ) :
    (analyze t w s g e).overall_score
      = min 100
          ((analyze t w s g e).criterion_scores.salutation +
           (analyze t w s g e).criterion_scores.keyword_presence +
           (analyze t w s g e).criterion_scores.flow +
           (analyze t w s g e).criterion_scores.speech_rate +
           (analyze t w s g e).criterion_scores.grammar +
           (analyze t w s g e).criterion_scores.vocabulary +
           (analyze t w s g e).criterion_scores.clarity +
           (analyze t w s g e).criterion_scores.engagement) := rfl

/-- A transcript containing all six must-have keywords and five
good-to-have keywords. -/
def kwMaxTranscript : Str :=
  "name age class school family hobbies from goal dream unique strength".toList

set_option maxRecDepth 40000 in
/-- C2 counterexample: on `kwMaxTranscript` the keyword_presence criterion
score produced by analyze is 34, exceeding the documented rubric maximum 30. -/
theorem keyword_presence_exceeds_rubric_max :
    (analyze kwMaxTranscript [] [] GrammarExt.unavailable
        (Except.error ())).criterion_scores.keyword_presence = 34 ∧
      ¬ ((analyze kwMaxTranscript [] [] GrammarExt.unavailable
        (Except.error ())).criterion_scores.keyword_presence ≤ 30) := by
  constructor
  · decide
  · decide

/-- C2 amended: every criterion score produced by analyze is bounded by its
documented maximum, except keyword_presence whose attainable maximum is 34
(exceeding its rubric weight 30). -/
theorem criterion_scores_bounded (t : Str) (w : List Str) (s : List Str)
    (g : GrammarExt) (e : Except Unit ℚ) :
    (analyze t w s g e).criterion_scores.salutation ≤ 5 ∧
    (analyze t w s g e).criterion_scores.keyword_presence ≤ 34 ∧
    (analyze t w s g e).criterion_scores.flow ≤ 5 ∧
    (analyze t w s g e).criterion_scores.speech_rate ≤ 10 ∧
    (analyze t w s g e).criterion_scores.grammar ≤ 10 ∧
    (analyze t w s g e).criterion_scores.vocabulary ≤ 10 ∧
    (analyze t w s g e).criterion_scores.clarity ≤ 15 ∧
    (analyze t w s g e).criterion_scores.engagement ≤ 15 :=
  ⟨analyze_salutation_le t, analyze_keyword_presence_le t, analyze_flow_le s,
   analyze_speech_rate_le w.length, analyze_grammar_le g s w.length,
   analyze_vocabulary_le w, analyze_clarity_le t w, analyze_engagement_le e⟩

/-- C3 counterexample: a 122-word transcript yields about 140.77 wpm, which
lies in none of the five configured bands (it falls in the gap between
ideal's upper bound 140 and fast's lower bound 141), so the bands are not
exhaustive over rates derived from word counts; the analyzer's final else
branch then returns the too-slow score 2. -/
theorem speech_rate_band_gap_at_122 :
    ¬ inBandTooFast (words_per_minute 122) ∧
    ¬ inBandFast (words_per_minute 122) ∧
    ¬ inBandIdeal (words_per_minute 122) ∧
    ¬ inBandSlow (words_per_minute 122) ∧
    ¬ inBandTooSlow (words_per_minute 122) ∧
    analyze_speech_rate 122 = 2 := by
  simp only [inBandTooFast, inBandFast, inBandIdeal, inBandSlow, inBandTooSlow,
    analyze_speech_rate, words_per_minute, DEFAULT_DURATION_SEC]
  norm_num

/-- C3 amended: the five configured bands are pairwise non-overlapping, and
whenever the rate derived from a word count lies in a band the analyzer
returns that band's score (so inclusive boundaries go to the documented
band); but the bands are not exhaustive — for word counts whose rate lies
in none of them (such as 122) the analyzer returns the fallback score 2. -/
theorem speech_rate_bands_disjoint_scores (n : ℕ) :
    (inBandTooFast (words_per_minute n) →
      ¬ inBandFast (words_per_minute n) ∧ ¬ inBandIdeal (words_per_minute n) ∧
      ¬ inBandSlow (words_per_minute n) ∧ ¬ inBandTooSlow (words_per_minute n)) ∧
    (inBandFast (words_per_minute n) →
      ¬ inBandIdeal (words_per_minute n) ∧ ¬ inBandSlow (words_per_minute n) ∧
      ¬ inBandTooSlow (words_per_minute n)) ∧
    (inBandIdeal (words_per_minute n) →
      ¬ inBandSlow (words_per_minute n) ∧ ¬ inBandTooSlow (words_per_minute n)) ∧
    (inBandSlow (words_per_minute n) → ¬ inBandTooSlow (words_per_minute n)) ∧
    (inBandTooFast (words_per_minute n) → analyze_speech_rate n = 2) ∧
    (inBandFast (words_per_minute n) → analyze_speech_rate n = 6) ∧
    (inBandIdeal (words_per_minute n) → analyze_speech_rate n = 10) ∧
    (inBandSlow (words_per_minute n) → analyze_speech_rate n = 6) ∧
    (inBandTooSlow (words_per_minute n) → analyze_speech_rate n = 2) ∧
    ((¬ inBandTooFast (words_per_minute n) ∧ ¬ inBandFast (words_per_minute n) ∧
      ¬ inBandIdeal (words_per_minute n) ∧ ¬ inBandSlow (words_per_minute n) ∧
      ¬ inBandTooSlow (words_per_minute n)) → analyze_speech_rate n = 2) := by
  simp only [inBandTooFast, inBandFast, inBandIdeal, inBandSlow, inBandTooSlow,
    analyze_speech_rate]
  refine ⟨?_, ?_, ?_, ?_, ?_, ?_, ?_, ?_, ?_, ?_⟩
  · intro h
    refine ⟨?_, ?_, ?_, ?_⟩ <;> rintro ⟨h1, h2⟩ <;> linarith
  · rintro ⟨ha, hb⟩
    refine ⟨?_, ?_, ?_⟩ <;> rintro ⟨h1, h2⟩ <;> linarith
  · rintro ⟨ha, hb⟩
    refine ⟨?_, ?_⟩ <;> rintro ⟨h1, h2⟩ <;> linarith
  · rintro ⟨ha, hb⟩
    rintro ⟨h1, h2⟩
    linarith
  · intro h
    rw [if_pos (show words_per_minute n > 160 by linarith)]
  · rintro ⟨ha, hb⟩
    rw [if_neg (show ¬ words_per_minute n > 160 by linarith),
      if_pos (show (141 : ℚ) ≤ words_per_minute n ∧ words_per_minute n ≤ 160
        from ⟨ha, hb⟩)]
  · rintro ⟨ha, hb⟩
    rw [if_neg (show ¬ words_per_minute n > 160 by linarith),
      if_neg (show ¬ ((141 : ℚ) ≤ words_per_minute n ∧ words_per_minute n ≤ 160)
        from fun hc => by linarith [hc.1]),
      if_pos (show (111 : ℚ) ≤ words_per_minute n ∧ words_per_minute n ≤ 140
        from ⟨ha, hb⟩)]
  · rintro ⟨ha, hb⟩
    rw [if_neg (show ¬ words_per_minute n > 160 by linarith),
      if_neg (show ¬ ((141 : ℚ) ≤ words_per_minute n ∧ words_per_minute n ≤ 160)
        from fun hc => by linarith [hc.1]),
      if_neg (show ¬ ((111 : ℚ) ≤ words_per_minute n ∧ words_per_minute n ≤ 140)
        from fun hc => by linarith [hc.1]),
      if_pos (show (81 : ℚ) ≤ words_per_minute n ∧ words_per_minute n ≤ 110
        from ⟨ha, hb⟩)]
  · rintro ⟨ha, hb⟩
    rw [if_neg (show ¬ words_per_minute n > 160 by linarith),
      if_neg (show ¬ ((141 : ℚ) ≤ words_per_minute n ∧ words_per_minute n ≤ 160)
        from fun hc => by linarith [hc.1]),
      if_neg (show ¬ ((111 : ℚ) ≤ words_per_minute n ∧ words_per_minute n ≤ 140)
        from fun hc => by linarith [hc.1]),
      if_neg (show ¬ ((81 : ℚ) ≤ words_per_minute n ∧ words_per_minute n ≤ 110)
        from fun hc => by linarith [hc.1])]
  · rintro ⟨hTF, hF, hI, hS, hTS⟩
    by_cases h1 : words_per_minute n > 160
    · rw [if_pos h1]
    · rw [if_neg h1, if_neg hF, if_neg hI, if_neg hS]


/-- Witness for the amended C3 theorem: 130 words give 150 wpm, inside the
fast band, and the analyzer indeed scores 6. -/
theorem speech_rate_bands_disjoint_scores_witness :
    inBandFast (words_per_minute 130) ∧ analyze_speech_rate 130 = 6 := by
  have hband : inBandFast (words_per_minute 130) := by
    simp only [inBandFast, words_per_minute, DEFAULT_DURATION_SEC]
    norm_num
  exact ⟨hband, (speech_rate_bands_disjoint_scores 130).2.2.2.2.2.1 hband⟩

/-- C4: a transcript containing an excellent-tier salutation keyword scores
5 even when a normal-tier keyword is also present (never 2); in general the
analyzer returns the score of the first matching tier in descending rank
order, else 0. -/
theorem salutation_tier_precedence (t : Str) :
    ((∃ ke ∈ excellent_keywords, containsSub ke (strLower t) = true) →
      (∃ kn ∈ normal_keywords, containsSub kn (strLower t) = true) →
      analyze_salutation t = 5 ∧ analyze_salutation t ≠ 2) ∧
    ((∃ k ∈ excellent_keywords, containsSub k (strLower t) = true) →
      analyze_salutation t = 5) ∧
    (¬ (∃ k ∈ excellent_keywords, containsSub k (strLower t) = true) →
      (∃ k ∈ good_keywords, containsSub k (strLower t) = true) →
      analyze_salutation t = 4) ∧
    (¬ (∃ k ∈ excellent_keywords, containsSub k (strLower t) = true) →
      ¬ (∃ k ∈ good_keywords, containsSub k (strLower t) = true) →
      (∃ k ∈ normal_keywords, containsSub k (strLower t) = true) →
      analyze_salutation t = 2) ∧
    (¬ (∃ k ∈ excellent_keywords, containsSub k (strLower t) = true) →
      ¬ (∃ k ∈ good_keywords, containsSub k (strLower t) = true) →
      ¬ (∃ k ∈ normal_keywords, containsSub k (strLower t) = true) →
      analyze_salutation t = 0) := by
  have hconv : ∀ (l : List Str),
      (∃ k ∈ l, containsSub k (strLower t) = true) ↔
        l.any (fun k => containsSub k (strLower t)) = true :=
    fun l => List.any_eq_true.symm
  simp only [analyze_salutation]
  split_ifs with he hg hn
  · exact ⟨fun _ _ => ⟨rfl, by decide⟩, fun _ => rfl,
      fun hne _ => absurd ((hconv _).mpr he) hne,
      fun hne _ _ => absurd ((hconv _).mpr he) hne,
      fun hne _ _ => absurd ((hconv _).mpr he) hne⟩
  · exact ⟨fun hex _ => absurd ((hconv _).mp hex) he,
      fun hex => absurd ((hconv _).mp hex) he,
      fun _ _ => rfl,
      fun _ hng _ => absurd ((hconv _).mpr hg) hng,
      fun _ hng _ => absurd ((hconv _).mpr hg) hng⟩
  · exact ⟨fun hex _ => absurd ((hconv _).mp hex) he,
      fun hex => absurd ((hconv _).mp hex) he,
      fun _ hgo => absurd ((hconv _).mp hgo) hg,
      fun _ _ _ => rfl,
      fun _ _ hnn => absurd ((hconv _).mpr hn) hnn⟩
  · exact ⟨fun hex _ => absurd ((hconv _).mp hex) he,
      fun hex => absurd ((hconv _).mp hex) he,
      fun _ hgo => absurd ((hconv _).mp hgo) hg,
      fun _ _ hne => absurd ((hconv _).mp hne) hn,
      fun _ _ _ => rfl⟩

set_option maxRecDepth 40000 in
/-- Witness for C4: "hi, feeling great" contains the excellent keyword
"feeling great" and the normal keyword "hi", and scores 5, not 2. -/
theorem salutation_tier_precedence_witness :
    analyze_salutation "hi, feeling great".toList = 5 ∧
      analyze_salutation "hi, feeling great".toList ≠ 2 :=
  (salutation_tier_precedence "hi, feeling great".toList).1
    ⟨"feeling great".toList, by decide, by decide⟩
    ⟨"hi".toList, by decide, by decide⟩

set_option maxRecDepth 40000 in
/-- C5: the keyword-presence score is 4 points per matched must-have keyword
plus the good-to-have total (2 points per match) capped at 10 before the
sum; it never exceeds 34 and 34 is attained (on `kwMaxTranscript`). -/
theorem keyword_presence_formula :
    (∀ t : Str,
      analyze_keyword_presence t
        = 4 * (must_have_keywords.filter
                (fun k => fuzzy_match k (strLower t))).length
          + min (2 * (good_to_have_keywords.filter
                (fun k => fuzzy_match k (strLower t))).length) 10 ∧
      analyze_keyword_presence t ≤ 34) ∧
    analyze_keyword_presence kwMaxTranscript = 34 :=
  ⟨fun t => ⟨analyze_keyword_presence_eq t, analyze_keyword_presence_le t⟩,
   by decide⟩

/-- C6: flow is 0 with fewer than 2 sentences; with at least 2 sentences it
is 5 exactly when the first sentence contains an opening greeting and the
last contains a closing/gratitude word, and 0 otherwise. -/
theorem flow_requires_both_ends (sentences : List Str) :
    (sentences.length < 2 → analyze_flow sentences = 0) ∧
    (2 ≤ sentences.length →
      ((analyze_flow sentences = 5) ↔
        (flow_greetings.any
            (fun w => containsSub w (strLower (sentences.headD []))) = true ∧
         flow_closings.any
            (fun w => containsSub w (strLower (sentences.getLastD []))) = true)) ∧
      (¬ (flow_greetings.any
            (fun w => containsSub w (strLower (sentences.headD []))) = true ∧
          flow_closings.any
            (fun w => containsSub w (strLower (sentences.getLastD []))) = true) →
        analyze_flow sentences = 0)) := by
  simp only [analyze_flow]
  split_ifs with hlen hb
  · exact ⟨fun _ => rfl, fun h2 => absurd hlen (by omega)⟩
  · have hb2 := Bool.and_eq_true _ _ ▸ hb
    refine ⟨fun h => absurd h hlen, fun _ => ⟨?_, ?_⟩⟩
    · exact ⟨fun _ => ⟨hb2.1, hb2.2⟩, fun _ => rfl⟩
    · exact fun hno => absurd ⟨hb2.1, hb2.2⟩ hno
  · refine ⟨fun h => absurd h hlen, fun _ => ⟨?_, fun _ => rfl⟩⟩
    exact ⟨fun h5 => absurd h5 (by decide),
      fun hc => absurd (show _ = true by
        rw [Bool.and_eq_true]; exact ⟨hc.1, hc.2⟩) hb⟩

set_option maxRecDepth 40000 in
/-- Witness for C6: two sentences with a greeting up front and thanks at the
end score the flow bonus 5. -/
theorem flow_requires_both_ends_witness :
    analyze_flow ["Hello everyone.".toList, "Thank you.".toList] = 5 :=
  (((flow_requires_both_ends
      ["Hello everyone.".toList, "Thank you.".toList]).2
    (by decide)).1).mpr ⟨by decide, by decide⟩

/-- C7: when the external grammar capability is unavailable or throws, the
analyzer falls back to the heuristic check, whose score is always in
{10,8,6,4}; the primary external path scores in {10,8,6,4,2}. -/
theorem grammar_fallback_ranges (g : GrammarExt) (sentences : List Str)
    (total : ℕ) :
    ((g = GrammarExt.unavailable ∨ g = GrammarExt.throws) →
      analyze_grammar g sentences total = basic_grammar_check sentences total) ∧
    (basic_grammar_check sentences total = 10 ∨
     basic_grammar_check sentences total = 8 ∨
     basic_grammar_check sentences total = 6 ∨
     basic_grammar_check sentences total = 4) ∧
    (∀ m, analyze_grammar (GrammarExt.ok m) sentences total
        = grammar_primary m total) ∧
    (∀ m, grammar_primary m total = 10 ∨ grammar_primary m total = 8 ∨
      grammar_primary m total = 6 ∨ grammar_primary m total = 4 ∨
      grammar_primary m total = 2) := by
  refine ⟨?_, basic_grammar_check_mem sentences total, fun m => rfl,
    fun m => grammar_primary_mem m total⟩
  rintro (rfl | rfl) <;> rfl

/-- Witness for C7: with the tool unavailable the analyzer returns exactly
the heuristic fallback result. -/
theorem grammar_fallback_ranges_witness :
    analyze_grammar GrammarExt.unavailable [] 0 = basic_grammar_check [] 0 :=
  (grammar_fallback_ranges GrammarExt.unavailable [] 0).1 (Or.inl rfl)

set_option maxRecDepth 40000 in
/-- C8 divergence: the transcript "honored to be" is scored as the
excellent tier (5) by the salutation analyzer, whose excellent keyword list
includes "honored to be", but the feedback function omits that keyword from
its own excellent list and reports that no appropriate salutation was
found — the feedback rationale does not name the tier that matched. -/
theorem salutation_feedback_mismatch :
    analyze_salutation "honored to be".toList = 5 ∧
      get_salutation_feedback "honored to be".toList
        = "No appropriate salutation found".toList := by
  constructor
  · decide
  · decide

/-- C9: a failing sentiment call yields the fixed neutral default 9; on
success the score follows the five thresholds on the positive-affect
proportion and always lies in {3,6,9,12,15}. -/
theorem engagement_default_and_thresholds (p : ℚ) :
    analyze_engagement (Except.error ()) = 9 ∧
    (9/10 ≤ p → analyze_engagement (Except.ok p) = 15) ∧
    (7/10 ≤ p → p < 9/10 → analyze_engagement (Except.ok p) = 12) ∧
    (5/10 ≤ p → p < 7/10 → analyze_engagement (Except.ok p) = 9) ∧
    (3/10 ≤ p → p < 5/10 → analyze_engagement (Except.ok p) = 6) ∧
    (p < 3/10 → analyze_engagement (Except.ok p) = 3) ∧
    (analyze_engagement (Except.ok p) = 15 ∨
     analyze_engagement (Except.ok p) = 12 ∨
     analyze_engagement (Except.ok p) = 9 ∨
     analyze_engagement (Except.ok p) = 6 ∨
     analyze_engagement (Except.ok p) = 3) := by
  refine ⟨rfl, ?_, ?_, ?_, ?_, ?_, ?_⟩ <;>
    simp only [analyze_engagement]
  · intro h; split_ifs <;> first | rfl | linarith
  · intro h h'; split_ifs <;> first | rfl | linarith
  · intro h h'; split_ifs <;> first | rfl | linarith
  · intro h h'; split_ifs <;> first | rfl | linarith
  · intro h; split_ifs <;> first | rfl | linarith
  · split_ifs <;> simp

/-- Witness for C9: a positive proportion of 0.8 scores 12, and a failing
call scores the default 9. -/
theorem engagement_default_and_thresholds_witness :
    analyze_engagement (Except.ok ((4 : ℚ)/5)) = 12 ∧
      analyze_engagement (Except.error ()) = 9 :=
  ⟨(engagement_default_and_thresholds ((4 : ℚ)/5)).2.2.1 (by norm_num)
      (by norm_num),
   (engagement_default_and_thresholds 0).1⟩

theorem basic_grammar_check_zero_words (s : List Str) :
    basic_grammar_check s 0 = 10 := by
  simp only [basic_grammar_check]
  norm_num

theorem grammar_primary_zero_words (m : ℕ) : grammar_primary m 0 = 10 := by
  simp only [grammar_primary]
  norm_num

theorem analyze_grammar_zero_words (g : GrammarExt) (s : List Str) :
    analyze_grammar g s 0 = 10 := by
  cases g with
  | unavailable => exact basic_grammar_check_zero_words s
  | throws => exact basic_grammar_check_zero_words s
  | ok m => exact grammar_primary_zero_words m

theorem analyze_speech_rate_zero : analyze_speech_rate 0 = 2 := by
  simp only [analyze_speech_rate, words_per_minute, DEFAULT_DURATION_SEC]
  norm_num

/-- C10: a non-empty transcript within the length limit whose tokenization
yields zero word tokens passes the boundary checks and produces a complete
AnalysisResult: word_count 0, grammar 10 on either path, vocabulary floor 2,
clarity floor 3, and speech rate 2 for 0 wpm; no division by zero occurs
(each rate computation is guarded). -/
theorem empty_tokenization_graceful (t : Str) (sentences : List Str)
    (g : GrammarExt) (e : Except Unit ℚ) (hne : t ≠ [])
    (hlen : t.length ≤ MAX_TRANSCRIPT_LENGTH) :
    analyze_transcript_endpoint t [] sentences g e
        = Except.ok (analyze t [] sentences g e) ∧
    (analyze t [] sentences g e).word_count = 0 ∧
    (analyze t [] sentences g e).criterion_scores.grammar = 10 ∧
    (analyze t [] sentences g e).criterion_scores.vocabulary = 2 ∧
    (analyze t [] sentences g e).criterion_scores.clarity = 3 ∧
    (analyze t [] sentences g e).criterion_scores.speech_rate = 2 := by
  refine ⟨?_, rfl, ?_, rfl, rfl, ?_⟩
  · simp only [analyze_transcript_endpoint]
    rw [if_neg hne, if_neg (by omega : ¬ t.length > MAX_TRANSCRIPT_LENGTH)]
  · exact analyze_grammar_zero_words g sentences
  · exact analyze_speech_rate_zero

/-- Witness for C10: the whitespace-only transcript " " with an empty token
list flows through the boundary and every guarded analyzer. -/
theorem empty_tokenization_graceful_witness :
    analyze_transcript_endpoint " ".toList [] []
        GrammarExt.unavailable (Except.error ())
      = Except.ok (analyze " ".toList [] [] GrammarExt.unavailable
          (Except.error ())) ∧
    (analyze " ".toList [] [] GrammarExt.unavailable
        (Except.error ())).word_count = 0 ∧
    (analyze " ".toList [] [] GrammarExt.unavailable
        (Except.error ())).criterion_scores.grammar = 10 ∧
    (analyze " ".toList [] [] GrammarExt.unavailable
        (Except.error ())).criterion_scores.vocabulary = 2 ∧
    (analyze " ".toList [] [] GrammarExt.unavailable
        (Except.error ())).criterion_scores.clarity = 3 ∧
    (analyze " ".toList [] [] GrammarExt.unavailable
        (Except.error ())).criterion_scores.speech_rate = 2 :=
  empty_tokenization_graceful " ".toList [] GrammarExt.unavailable
    (Except.error ()) (by decide) (by decide)

end CommAnalyzer
